import Mathlib

/-
Verification of the email-to-CRM orchestration core of this repository.

The definitions below are a shallow embedding of the Python source:
 - src/backend/app/agents/analyze_email.py   (EmailAnalyzer._parse_ai_response)
 - src/backend/app/agents/orchestrator.py    (AgentOrchestrator)
 - src/backend/app/agents/pipedrive_manager.py (PipedriveManager)
 - src/backend/app/agents/microsoft_manager.py (MicrosoftManager)
 - src/backend/app/webhooks/microsoft.py     (MicrosoftWebhookManager)

Modelling conventions:
 - Python dicts with a fixed key set become structures; keys that the code
   may leave absent become Option fields.
 - Async I/O against external services (HTTP, database) is replaced by
   explicit state passing over a CrmState value, plus a log of issued
   provider calls, so that claims about which calls happen are statements
   about the log.
 - Exceptions become Except / Option results; a Python function that
   catches all exceptions and returns a default is embedded as a total
   function returning that default on the modelled failure condition.
 - Python floats are modelled as rationals (the claims only compare
   against 0.3, 0.15, 0.0, where float rounding is irrelevant).
 - The json standard library is external to the repository, so the
   decoder is a parameter (loads); the brace-scanning and defaulting
   policy around it is translated from the source.
-/

/-! JSON value model for the classification-response dictionaries. -/

inductive Json where
  | str : String → Json
  | num : Int → Json
  | bool : Bool → Json
  | list : List Json → Json
  | null : Json

abbrev JsonObj := List (String × Json)

/-- Association-list lookup, first match wins (Python dict access). -/
def lookupField : JsonObj → String → Option Json
  | [], _ => none
  | (k, v) :: rest, f => if k = f then some v else lookupField rest f

def lbrace : Char := Char.ofNat 123

def rbrace : Char := Char.ofNat 125

def findIdxOfChar (cs : List Char) (c : Char) : Option Nat :=
  cs.findIdx? (fun x => x == c)

def rfindIdxOfChar (cs : List Char) (c : Char) : Option Nat :=
  match cs.reverse.findIdx? (fun x => x == c) with
  | some i => some (cs.length - 1 - i)
  | none => none

/-- Source analyze_email.py lines 123-134: the per-field default the code
substitutes when a required field is absent from the parsed object. -/
def pyDefaultFor (f : String) : Json :=
  if f = "ai_generated" then Json.bool true
  else if f = "key_points" then Json.list []
  else if f = "estimated_value" then Json.num 0
  else if f = "currency" then Json.str "DKK"
  else Json.str ""

/-- Source analyze_email.py lines 109-121: the required field list. -/
def requiredFields : List String :=
  ["is_sales_opportunity", "confidence", "opportunity_type",
   "estimated_value", "currency", "urgency", "next_action",
   "person_name", "organization_name", "key_points", "ai_generated"]

/-- One iteration of the loop at analyze_email.py lines 123-134: add the
default for a field when it is absent. -/
def fillStep (acc : JsonObj) (f : String) : JsonObj :=
  match lookupField acc f with
  | some _ => acc
  | none => acc ++ [(f, pyDefaultFor f)]

def fillRequired (obj : JsonObj) : JsonObj :=
  requiredFields.foldl fillStep obj

/-- Source analyze_email.py lines 148-160: the fully defaulted result
returned when json.loads raises JSONDecodeError. -/
def default_parse_result : JsonObj :=
  [("is_sales_opportunity", Json.bool false),
   ("confidence", Json.num 0),
   ("opportunity_type", Json.str "other"),
   ("estimated_value", Json.num 0),
   ("currency", Json.str "DKK"),
   ("urgency", Json.str "low"),
   ("next_action", Json.str "no_action"),
   ("person_name", Json.str ""),
   ("organization_name", Json.str ""),
   ("key_points", Json.list []),
   ("ai_generated", Json.bool true)]

/-- Embedding of EmailAnalyzer._parse_ai_response (analyze_email.py lines
96-160). loads models json.loads, returning none exactly when the Python
call raises JSONDecodeError. The Error result models the ValueError the
source raises at line 103 when no brace pair is found: that exception is
not a json.JSONDecodeError, so the handler at line 138 does not catch it
and it propagates to the caller. -/
def parse_ai_response (loads : String → Option JsonObj) (content : String) :
    Except String JsonObj :=
  let cs := content.toList
  match findIdxOfChar cs lbrace, rfindIdxOfChar cs rbrace with
  | some s, some r =>
    let json_str := String.mk ((cs.drop s).take (r + 1 - s))
    match loads json_str with
    | some result => Except.ok (fillRequired result)
    | none => Except.ok default_parse_result
  | _, _ => Except.error "No JSON found in response"

/-- A json.loads model defined only at the empty object text, matching the
real decoder there (json.loads of an empty object yields an empty dict). -/
def loadsEmptyObj : String → Option JsonObj :=
  fun s => if s = "\x7b\x7d" then some [] else none

def emptyObjStr : String := "\x7b\x7d"

/-- A json.loads model that always fails; used for inputs whose brace scan
already fails, where the decoder is never consulted. -/
def noLoads : String → Option JsonObj := fun _ => none

def noJsonContent : String := "The email is not a sales opportunity."

/-! String primitives. The embedding uses structurally recursive
character-list versions of the Python string operations, mirroring
str.lower, str.split, str.startswith and str.replace. -/

def lowerStr (s : String) : String :=
  String.mk (s.toList.map Char.toLower)

def splitOnChar (cs : List Char) (sep : Char) : List (List Char) :=
  match cs with
  | [] => [[]]
  | c :: rest =>
    let r := splitOnChar rest sep
    if c == sep then [] :: r
    else
      match r with
      | [] => [[c]]
      | g :: gs => (c :: g) :: gs

/-- Python str.replace with an empty replacement: drop every
(left-to-right, non-overlapping) occurrence of the pattern. The fuel is
the length of the scanned list. -/
def removeOccurrences (pat : List Char) : Nat → List Char → List Char
  | 0, _ => []
  | _ + 1, [] => []
  | fuel + 1, c :: cs =>
    if pat ≠ [] ∧ pat.isPrefixOf (c :: cs) then
      removeOccurrences pat fuel ((c :: cs).drop pat.length)
    else c :: removeOccurrences pat fuel cs

/-! Credential persistence layer (token refresh).

The encryption collaborator (src/backend/app/lib/encryption.py,
TokenEncryption.encrypt_token) is modelled abstractly: a stored column
value is tagged by whether it went through encrypt_token before the
database update. The claims at this layer are about whether the managers
invoke encrypt_token on write, not about the cipher itself. -/

inductive StoredVal where
  | plain : String → StoredVal
  | enc : String → StoredVal

/-- Abstract model of TokenEncryption.encrypt_token: tags its input as
ciphertext. -/
def encrypt_token (s : String) : StoredVal := StoredVal.enc s

structure TokenPair where
  access_token : String
  refresh_token : Option String

structure TokenRefreshResponse where
  status : Nat
  access_token : String
  refresh_token : Option String

/-- The update payload written to the integrations table. -/
structure IntegrationUpdate where
  access_token : StoredVal
  refresh_token : Option StoredVal

/-- Embedding of PipedriveManager._refresh_access_token (pipedrive_manager.py
lines 148-191): on a 200 token response it updates the in-memory token pair
and writes the new pair to the integrations table. The source passes
self.tokens values to the update directly, so the stored values are the
plain strings. -/
def pipedrive_refresh_access_token (tokens : TokenPair)
    (resp : TokenRefreshResponse) :
    Except String (TokenPair × IntegrationUpdate) :=
  match tokens.refresh_token with
  | none => Except.error "No refresh token available"
  | some r0 =>
    if resp.status ≠ 200 then Except.error "Token refresh failed"
    else
      let tokens' : TokenPair :=
        { access_token := resp.access_token
          refresh_token :=
            match resp.refresh_token with
            | some r => some r
            | none => some r0 }
      Except.ok (tokens',
        { access_token := StoredVal.plain tokens'.access_token
          refresh_token := tokens'.refresh_token.map StoredVal.plain })

/-- Embedding of MicrosoftManager._refresh_access_token (microsoft_manager.py
lines 131-180): same flow, but the update payload runs both tokens through
token_encryption.encrypt_token before the database write. -/
def microsoft_refresh_access_token (tokens : TokenPair)
    (resp : TokenRefreshResponse) :
    Except String (TokenPair × IntegrationUpdate) :=
  match tokens.refresh_token with
  | none => Except.error "No refresh token available"
  | some r0 =>
    if resp.status ≠ 200 then Except.error "Token refresh failed"
    else
      let tokens' : TokenPair :=
        { access_token := resp.access_token
          refresh_token :=
            match resp.refresh_token with
            | some r => some r
            | none => some r0 }
      Except.ok (tokens',
        { access_token := encrypt_token tokens'.access_token
          refresh_token := tokens'.refresh_token.map encrypt_token })

/-! Provider API call policy (shared by PipedriveManager._make_api_call,
pipedrive_manager.py lines 193-221, and MicrosoftManager._make_api_call,
microsoft_manager.py lines 182-210; the two bodies are identical up to the
error class). The HTTP responses the provider would return for the first
attempt and for the retried attempt are inputs; refreshOk tells whether
the token refresh performed on a 401 succeeds (if it fails, the refresh
raises and the call never retries). -/

structure HttpResponse where
  status : Nat

inductive CallResult where
  | ok : HttpResponse → CallResult
  | apiError : Nat → CallResult
  | refreshError : CallResult

structure CallTrace where
  result : CallResult
  requests : Nat
  refreshes : Nat

def make_api_call (first retry : HttpResponse) (refreshOk : Bool) :
    CallTrace :=
  if first.status = 401 then
    if refreshOk then
      { result :=
          if retry.status = 200 ∨ retry.status = 201 then CallResult.ok retry
          else CallResult.apiError retry.status
        requests := 2
        refreshes := 1 }
    else
      { result := CallResult.refreshError, requests := 1, refreshes := 1 }
  else
    { result :=
        if first.status = 200 ∨ first.status = 201 then CallResult.ok first
        else CallResult.apiError first.status
      requests := 1
      refreshes := 0 }

/-! CRM (Pipedrive) entity model and operation layer.

Entities mirror the dictionaries the manager builds from API responses
(pipedrive_manager.py lines 252-263, 380-389, 408-413, 473-482). Each
operation threads a CrmState and prepends a CrmCall entry to the call
log, so statements about which provider calls a flow issues are
statements about the log. Failure flags model the points at which the
claims exercise a caught provider exception: the open-deal query
(has_open_deal, lines 488-505, returns False on exception), contact
creation (lines 342-393, returns None on exception) and deal creation
(lines 448-486, returns None on exception). -/

structure Contact where
  id : Nat
  name : String
  email : String
  company_id : Option Nat
  company_name : Option String
  created_at : Nat
  updated_at : Nat
deriving DecidableEq

structure Org where
  id : Nat
  name : String
deriving DecidableEq

structure Deal where
  id : Nat
  title : String
  value : Int
  currency : String
  personId : Nat
  orgId : Option Nat
  status : String
deriving DecidableEq

inductive CrmCall where
  | personSearch : String → CrmCall
  | dealsByPerson : Nat → CrmCall
  | openDealsByPerson : Nat → CrmCall
  | orgSearch : String → CrmCall
  | orgCreate : String → CrmCall
  | personCreate : String → String → Option String → CrmCall
  | dealCreate : Nat → String → Int → String → CrmCall
  | noteCreate : Nat → CrmCall
deriving DecidableEq

structure CrmState where
  contacts : List Contact
  orgs : List Org
  deals : List Deal
  calls : List CrmCall
  nextId : Nat
  now : Nat
deriving DecidableEq

structure Faults where
  openDealCheckFails : Bool
  createContactFails : Bool
  createDealFails : Bool
deriving DecidableEq

def noFaults : Faults :=
  { openDealCheckFails := false, createContactFails := false,
    createDealFails := false }

def logCall (st : CrmState) (c : CrmCall) : CrmState :=
  { st with calls := c :: st.calls }


/-- Pure content of the contact search: the first stored contact whose
email matches case-insensitively (pipedrive_manager.py lines 239-263). -/
def findContactByEmail (contacts : List Contact) (email : String) :
    Option Contact :=
  contacts.find? (fun c => lowerStr c.email == lowerStr email)

/-- Embedding of PipedriveManager.search_contact_by_email (lines 224-272). -/
def search_contact_by_email (st : CrmState) (email : String) :
    CrmState × Option Contact :=
  (logCall st (CrmCall.personSearch email), findContactByEmail st.contacts email)

/-- Embedding of PipedriveManager.get_contact_deals (lines 275-304). -/
def get_contact_deals (st : CrmState) (contactId : Nat) :
    CrmState × List Deal :=
  (logCall st (CrmCall.dealsByPerson contactId),
   st.deals.filter (fun d => d.personId == contactId))

/-- Pure content of the open-deal query (lines 492-499): whether the
filtered deal list is nonempty. -/
def openDealsNonempty (deals : List Deal) (contactId : Nat) : Bool :=
  decide (0 < (deals.filter
    (fun d => d.personId == contactId && d.status == "open")).length)

/-- Embedding of PipedriveManager.has_open_deal (lines 488-505): on a
provider failure during the query the exception is caught and False is
returned. -/
def has_open_deal (st : CrmState) (faults : Faults) (contactId : Nat) :
    CrmState × Bool :=
  (logCall st (CrmCall.openDealsByPerson contactId),
   if faults.openDealCheckFails then false
   else openDealsNonempty st.deals contactId)

structure DealCheck where
  contact_exists : Bool
  contact : Option Contact
  deals : List Deal
  has_deals : Bool
deriving DecidableEq

/-- Embedding of PipedriveManager.contact_has_deals (lines 306-340). -/
def contact_has_deals (st : CrmState) (email : String) :
    CrmState × DealCheck :=
  let p := search_contact_by_email st email
  match p.2 with
  | none =>
    (p.1, { contact_exists := false, contact := none, deals := [],
            has_deals := false })
  | some c =>
    let q := get_contact_deals p.1 c.id
    (q.1, { contact_exists := true, contact := some c, deals := q.2,
            has_deals := decide (0 < q.2.length) })

/-- Embedding of PipedriveManager.search_organization_by_name (lines
395-421): case-insensitive exact name match over the returned items. -/
def search_organization_by_name (st : CrmState) (name : String) :
    CrmState × Option Org :=
  (logCall st (CrmCall.orgSearch name),
   st.orgs.find? (fun o => lowerStr o.name == lowerStr name))

/-- Embedding of PipedriveManager.create_organization (lines 423-446). -/
def create_organization (st : CrmState) (name : String) :
    CrmState × Org :=
  let st1 := logCall st (CrmCall.orgCreate name)
  let o : Org := { id := st1.nextId, name := name }
  ({ st1 with orgs := st1.orgs ++ [o], nextId := st1.nextId + 1 }, o)

structure ContactData where
  name : String
  email : String
  org_name : Option String
deriving DecidableEq

/-- Embedding of PipedriveManager.create_contact (lines 342-393): resolve
or create the organization named in the payload, then create the person.
On a caught failure of the person creation the function returns none (the
organization may already have been created by then, as in the source,
where the exception can arise at the person POST). -/
def create_contact (st : CrmState) (faults : Faults) (cd : ContactData) :
    CrmState × Option Contact :=
  let resolved :=
    match cd.org_name with
    | none => (st, (none : Option Nat))
    | some n =>
      let p := search_organization_by_name st n
      match p.2 with
      | some o => (p.1, some o.id)
      | none =>
        let q := create_organization p.1 n
        (q.1, some q.2.id)
  let st2 := logCall resolved.1 (CrmCall.personCreate cd.name cd.email cd.org_name)
  if faults.createContactFails then (st2, none)
  else
    let c : Contact :=
      { id := st2.nextId, name := cd.name, email := cd.email,
        company_id := resolved.2, company_name := cd.org_name,
        created_at := st2.now, updated_at := st2.now }
    ({ st2 with contacts := st2.contacts ++ [c], nextId := st2.nextId + 1 },
     some c)

structure DealData where
  title : String
  value : Int
  currency : String
deriving DecidableEq

/-- Embedding of PipedriveManager.create_deal (lines 448-486): a freshly
created Pipedrive deal is open. -/
def create_deal (st : CrmState) (faults : Faults) (contactId : Nat)
    (dd : DealData) (orgId : Option Nat) : CrmState × Option Deal :=
  let st1 := logCall st (CrmCall.dealCreate contactId dd.title dd.value dd.currency)
  if faults.createDealFails then (st1, none)
  else
    let d : Deal :=
      { id := st1.nextId, title := dd.title, value := dd.value,
        currency := dd.currency, personId := contactId, orgId := orgId,
        status := "open" }
    ({ st1 with deals := st1.deals ++ [d], nextId := st1.nextId + 1 }, some d)

/-- Embedding of PipedriveManager.log_note (lines 507-529), reached through
AgentOrchestrator._log_email_note; only the issued call matters here. -/
def log_note (st : CrmState) (dealId : Nat) : CrmState :=
  logCall st (CrmCall.noteCreate dealId)

/-! Orchestrator layer (src/backend/app/agents/orchestrator.py). -/

/-- Python str.capitalize: first character upper-cased, rest lower-cased. -/
def pyCapitalize (s : String) : String :=
  match s.toList with
  | [] => ""
  | c :: cs => String.mk (c.toUpper :: cs.map Char.toLower)

/-- The expression email_to.split at-sign, last part, split on dot, first
part (orchestrator.py lines 184, 270). -/
def firstDomainLabel (emailTo : String) : String :=
  String.mk
    (((splitOnChar ((splitOnChar emailTo.toList '@').getLastD []) '.')).headD [])

/-- The expression email_to.split at-sign, first part (orchestrator.py
line 198). -/
def localPart (emailTo : String) : String :=
  String.mk ((splitOnChar emailTo.toList '@').headD [])

/-- Python truthiness fallback for an optional string (x or y): both a
missing value and an empty string fall through to the alternative. -/
def pyOr (o : Option String) (d : String) : String :=
  match o with
  | some s => if s = "" then d else s
  | none => d

/-- Python truthiness chaining over optional strings (if not x: x = y). -/
def pyOrOpt (a b : Option String) : Option String :=
  match a with
  | some s => if s = "" then b else some s
  | none => b

/-- The confidence value of the parsed classification dict: normally a
number, but the defaulting pass of analyze_email.py line 134 delivers the
string for a missing confidence field, so the orchestrator can receive a
non-numeric value here. -/
inductive ConfVal where
  | num : Rat → ConfVal
  | str : String → ConfVal
deriving DecidableEq

/-- The classification dictionary as the orchestrator reads it. Fields the
orchestrator accesses through dict.get with a key that may be absent are
Option; is_sales_opportunity is collapsed to its truthiness (its only
uses are truthiness tests and metadata logging, where the empty-string
default and False coincide); confidence keeps the numeric-or-string
distinction because the categorizer compares it. -/
structure AiResult where
  is_sales_opportunity : Bool
  confidence : ConfVal
  estimated_value : Int
  currency : String
  person_name : Option String
  organization_name : Option String
deriving DecidableEq

def openDealReason : String := "Open deal already exists for this person."

/-- The keys _create_deal_if_needed may contribute to the result dict; a
none field models an absent key with respect to dict.update merging. -/
structure DealAttempt where
  deal_created : Bool
  deal : Option Deal
  reason : Option String
  deals : Option (List Deal)
  has_deals : Option Bool
deriving DecidableEq

/-- The merged result dict handed back by _handle_pipedrive_operations. -/
structure PipedriveResult where
  contact_exists : Bool
  contact : Option Contact
  deals : List Deal
  has_deals : Bool
  deal_created : Bool
  deal : Option Deal
  reason : Option String
  contact_existed_before : Bool
  org_existed_before : Bool
deriving DecidableEq

/-- The organization-name fallback chain of _create_deal_if_needed
(orchestrator.py lines 265-271): contact company_name, else AI
organization_name, else the capitalized first domain label, with Python
truthiness at each step. -/
def dealOrgName (c : Contact) (ai : AiResult) (emailTo : String) : String :=
  match pyOrOpt c.company_name (pyOrOpt ai.organization_name none) with
  | some s => s
  | none => pyCapitalize (firstDomainLabel emailTo)

/-- The deal title of orchestrator.py line 273. -/
def dealTitle (c : Contact) (ai : AiResult) (emailTo : String) : String :=
  "AI: " ++ (ai.person_name.getD c.name) ++ " - " ++ dealOrgName c ai emailTo

structure EmailData where
  toAddr : String
  sender : String
  subject : String
  content : String
deriving DecidableEq

/-- Embedding of AgentOrchestrator._create_deal_if_needed (orchestrator.py
lines 239-300). Exceptions caught by the source (deal creation failing)
are modelled through the createDealFails flag, yielding the same
deal_created false dictionary the handler returns. -/
def create_deal_if_needed (st : CrmState) (faults : Faults)
    (email : EmailData) (ai : AiResult) (dc : DealCheck) :
    CrmState × DealAttempt :=
  match dc.contact with
  | none =>
    (st, { deal_created := false, deal := none, reason := none,
           deals := none, has_deals := none })
  | some contact =>
    let p := has_open_deal st faults contact.id
    if p.2 then
      (p.1, { deal_created := false, deal := none,
              reason := some openDealReason, deals := none,
              has_deals := none })
    else
      let dd : DealData :=
        { title := dealTitle contact ai email.toAddr,
          value := ai.estimated_value, currency := ai.currency }
      let q := create_deal p.1 faults contact.id dd contact.company_id
      match q.2 with
      | some d =>
        (log_note q.1 d.id,
         { deal_created := true, deal := some d, reason := none,
           deals := some (dc.deals ++ [d]), has_deals := some true })
      | none =>
        (q.1, { deal_created := false, deal := none, reason := none,
                deals := none, has_deals := none })

/-- Python dict.update of the deal-check dict with the deal-attempt dict,
plus the two decision keys added at orchestrator.py lines 223-224. -/
def mergeResult (dc : DealCheck) (da : DealAttempt)
    (contactExisted orgExisted : Bool) : PipedriveResult :=
  { contact_exists := dc.contact_exists
    contact := dc.contact
    deals := da.deals.getD dc.deals
    has_deals := da.has_deals.getD dc.has_deals
    deal_created := da.deal_created
    deal := da.deal
    reason := da.reason
    contact_existed_before := contactExisted
    org_existed_before := orgExisted }

/-- Embedding of AgentOrchestrator._handle_pipedrive_operations
(orchestrator.py lines 153-237). -/
def handle_pipedrive_operations (st : CrmState) (faults : Faults)
    (email : EmailData) (ai : AiResult) : CrmState × PipedriveResult :=
  let p := contact_has_deals st email.toAddr
  let contact_existed := p.2.contact.isSome
  let q :=
    match p.2.contact with
    | some c => has_open_deal p.1 faults c.id
    | none => (p.1, false)
  let organization_name := pyCapitalize (firstDomainLabel email.toAddr)
  let r :=
    if organization_name = "" then (q.1, false)
    else
      let s := search_organization_by_name q.1 organization_name
      (s.1, s.2.isSome)
  let u :=
    if contact_existed then (r.1, p.2)
    else
      let person_name := pyOr ai.person_name (localPart email.toAddr)
      let cd : ContactData :=
        { name := person_name, email := email.toAddr,
          org_name :=
            if organization_name = "" then none else some organization_name }
      let v := create_contact r.1 faults cd
      (v.1,
        match v.2 with
        | some c => { p.2 with contact := some c, contact_exists := true }
        | none => p.2)
  let w :=
    if q.2 then
      (u.1, ({ deal_created := false, deal := none,
               reason := some openDealReason, deals := none,
               has_deals := none } : DealAttempt))
    else
      create_deal_if_needed u.1 faults email ai u.2
  (w.1, mergeResult u.2 w.2 contact_existed r.2)

/-- Model of the TypeError Python raises at orchestrator.py line 351 when
the categorizer compares a non-numeric confidence (the defaulted empty
string) against 0.3. -/
def confidenceTypeErrorMsg : String :=
  "TypeError: comparison of str and float is not supported"

/-- Embedding of AgentOrchestrator._categorize_webhook_outcome
(orchestrator.py lines 341-397). The first argument models ai_result
(none when analysis failed), the second pipedrive_result. The function
can raise: the comparison confidence less-than 0.3 at line 351 is a
TypeError when the defaulting pass delivered the string confidence, and
that exception propagates to the caller; the Error result models it. -/
def categorize_webhook_outcome (ai : Option AiResult)
    (pr : Option PipedriveResult) : Except String String :=
  match ai with
  | none => Except.ok "Error: Failed to process"
  | some a =>
    match a.confidence with
    | ConfVal.str _ => Except.error confidenceTypeErrorMsg
    | ConfVal.num q =>
    if q < mkRat 3 10 then Except.ok "Skipped: Low confidence score"
    else if !a.is_sales_opportunity then Except.ok "Ignored: Not a sales deal"
    else
      match pr with
      | none => Except.ok "Error: Failed to process"
      | some r =>
        if r.deal_created = false ∧ r.reason = some openDealReason then
          Except.ok "Not created: Deal already exists"
        else if r.deal_created then
          if r.contact_existed_before then
            if r.org_existed_before then
              Except.ok "Created: Contact & company already exists"
            else Except.ok "Created: Contact already exists"
          else
            if r.org_existed_before then
              Except.ok "Created: Company already exists"
            else Except.ok "Created: New contact, company & deal created"
        else if r.contact_exists && !r.deal_created then
          match r.contact with
          | some c =>
            if c.created_at = c.updated_at then
              Except.ok "Created: New contact created (no company)"
            else Except.ok "Not created: Deal already exists"
          | none => Except.ok "Not created: Deal already exists"
        else Except.ok "Error: Failed to process"

structure ProcessResult where
  success : Bool
  outcome : String
  ai_result : Option AiResult
  pipedrive_result : Option PipedriveResult
  activityLogged : Bool
deriving DecidableEq

/-- Embedding of AgentOrchestrator.process_email (orchestrator.py lines
44-141). aiOutcome models the value of _analyze_email, which catches any
analysis exception and returns None (lines 143-151); a None analysis
yields _create_error_result (lines 432-444) with no activity write. The
activityLogged flag records whether log_activity_to_supabase was invoked
(lines 70-80 for non-opportunities, _log_activity at line 106 otherwise);
that call never raises (error_handler.py lines 198-217). Of the
embedded steps, the one that can raise after a successful classification
is the categorizer comparing a non-numeric confidence (line 351); the
top-level except at lines 128-141 catches it and returns
_create_error_result with the formatted exception text, a None ai_result
and pipedrive_result, and no activity write; the state changes of the
already-executed Pipedrive operations persist. -/
def process_email (st : CrmState) (faults : Faults)
    (aiOutcome : Option AiResult) (email : EmailData) :
    CrmState × ProcessResult :=
  match aiOutcome with
  | none =>
    (st, { success := false, outcome := "Error: AI analysis failed",
           ai_result := none, pipedrive_result := none,
           activityLogged := false })
  | some ai =>
    if !ai.is_sales_opportunity then
      (st, { success := true, outcome := "Ignored: Not a sales deal",
             ai_result := some ai, pipedrive_result := none,
             activityLogged := true })
    else
      let p := handle_pipedrive_operations st faults email ai
      match categorize_webhook_outcome (some ai) (some p.2) with
      | Except.ok outcome =>
        (p.1, { success := true, outcome := outcome, ai_result := some ai,
                pipedrive_result := some p.2, activityLogged := true })
      | Except.error e =>
        (p.1, { success := false,
                outcome := "Error: Processing failed: " ++ e,
                ai_result := none, pipedrive_result := none,
                activityLogged := false })

/-! Webhook ingestion and dedup layer
(src/backend/app/webhooks/microsoft.py). -/

structure EmailRecord where
  user_id : String
  microsoft_email_id : String
deriving DecidableEq

structure WebhookDb where
  emails : List EmailRecord
deriving DecidableEq

structure Notification where
  resource : String
  clientState : String
  subscriptionId : String
deriving DecidableEq

/-- External collaborators of one notification step: the stored
microsoft_user_id of the active integration row for a user (none when no
active integration exists), and whether the Graph fetch of the full
message succeeds. -/
structure WebhookEnv where
  storedMsUserId : String → Option String
  fetchOk : String → String → Bool

/-- Resource parsing of microsoft.py lines 357-367: split on slash and
require a Users/id/Messages/id shape (case-insensitive markers). -/
def parseResource (resource : String) : Option (String × String) :=
  let parts := (splitOnChar resource.toList '/').map String.mk
  match parts.get? 0, parts.get? 1, parts.get? 2, parts.get? 3 with
  | some p0, some p1, some p2, some p3 =>
    if lowerStr p0 = "users" ∧ lowerStr p2 = "messages" then some (p1, p3)
    else none
  | _, _, _, _ => none

/-- Client-state parsing of microsoft.py lines 369-372: a user id is
extracted only from a state of the shape user_X. -/
def extractUserId (clientState : String) : Option String :=
  let pat := "user_".toList
  let cs := clientState.toList
  if pat.isPrefixOf cs then
    some (String.mk (removeOccurrences pat cs.length cs))
  else none

/-- Embedding of MicrosoftWebhookManager.email_exists_in_database
(microsoft.py lines 238-253). -/
def email_exists_in_database (db : WebhookDb) (userId messageId : String) :
    Bool :=
  db.emails.any (fun e =>
    e.user_id == userId && e.microsoft_email_id == messageId)

/-- Embedding of MicrosoftWebhookManager.verify_microsoft_user_mapping
(microsoft.py lines 255-295): the stored mapping must exist, be nonempty,
and equal the id embedded in the notification resource. -/
def verify_microsoft_user_mapping (env : WebhookEnv)
    (supabaseUserId microsoftUserId : String) : Bool :=
  match env.storedMsUserId supabaseUserId with
  | none => false
  | some stored => stored != "" && stored == microsoftUserId

inductive IngestStatus where
  | invalid : IngestStatus
  | skippedDuplicate : IngestStatus
  | mappingRejected : IngestStatus
  | fetchFailed : IngestStatus
  | stored : IngestStatus
deriving DecidableEq

/-- Embedding of one iteration of the notification loop in
MicrosoftWebhookManager.process_email_webhook (microsoft.py lines
352-547): parse the resource and client state, drop the notification when
any id is missing or empty, skip it when the (user, message) pair is
already recorded, verify the user mapping, fetch the message, and only
then insert the email record and hand off to the orchestrator. A stored
status covers the insert and the subsequent orchestrator hand-off; every
other status leaves the store untouched. -/
def process_email_webhook_step (env : WebhookEnv) (db : WebhookDb)
    (n : Notification) : WebhookDb × IngestStatus :=
  match parseResource n.resource, extractUserId n.clientState with
  | some pair, some supabaseUserId =>
    if pair.1 = "" ∨ pair.2 = "" ∨ supabaseUserId = "" then
      (db, IngestStatus.invalid)
    else if email_exists_in_database db supabaseUserId pair.2 then
      (db, IngestStatus.skippedDuplicate)
    else if !verify_microsoft_user_mapping env supabaseUserId pair.1 then
      (db, IngestStatus.mappingRejected)
    else if !env.fetchOk supabaseUserId pair.2 then
      (db, IngestStatus.fetchFailed)
    else
      ({ emails :=
          { user_id := supabaseUserId, microsoft_email_id := pair.2 } ::
            db.emails },
       IngestStatus.stored)
  | _, _ => (db, IngestStatus.invalid)

/-- Number of stored email records for one (user, message) pair. -/
def countPair (db : WebhookDb) (userId messageId : String) : Nat :=
  (db.emails.filter (fun e =>
    e.user_id == userId && e.microsoft_email_id == messageId)).length

/-! Call-log bookkeeping for the organization-name claim: a predicate on
issued calls constraining the organization-name arguments, and the
corresponding relation between an initial and a final CRM state. -/

def orgCallUses (dom : String) : CrmCall → Prop
  | CrmCall.orgSearch t => t = dom
  | CrmCall.orgCreate t => t = dom
  | _ => True

def callsExtendOrg (dom : String) (a b : CrmState) : Prop :=
  ∃ new, b.calls = new ++ a.calls ∧ ∀ x ∈ new, orgCallUses dom x

/-! Concrete fixtures for counterexamples and witnesses. -/

def defaultFilledEmpty : JsonObj := fillRequired []

def emptyCrm : CrmState :=
  { contacts := [], orgs := [], deals := [], calls := [], nextId := 1,
    now := 7 }

def annaEmail : EmailData :=
  { toAddr := "anna@novonordisk.com", sender := "jeppe@firma.dk",
    subject := "Tilbud", content := "Vi vil gerne have et tilbud." }

def lowConfAi : AiResult :=
  { is_sales_opportunity := true, confidence := ConfVal.num (mkRat 15 100),
    estimated_value := 50000, currency := "DKK", person_name := none,
    organization_name := none }

def widgetsEmail : EmailData :=
  { toAddr := "bob@widgets.com", sender := "jeppe@firma.dk",
    subject := "Order", content := "Offer for 100 widgets." }

def acmeAi : AiResult :=
  { is_sales_opportunity := true, confidence := ConfVal.num (mkRat 9 10),
    estimated_value := 1000, currency := "EUR",
    person_name := some "Bob", organization_name := some "Acme Corp" }

def larsContact : Contact :=
  { id := 11, name := "Lars", email := "lars@grundfos.com",
    company_id := some 20, company_name := some "Grundfos",
    created_at := 1, updated_at := 2 }

def larsOpenDeal : Deal :=
  { id := 31, title := "AI: Lars - Grundfos", value := 500,
    currency := "DKK", personId := 11, orgId := some 20, status := "open" }

def larsCrm : CrmState :=
  { contacts := [larsContact], orgs := [{ id := 20, name := "Grundfos" }],
    deals := [larsOpenDeal], calls := [], nextId := 40, now := 9 }

def larsEmail : EmailData :=
  { toAddr := "lars@grundfos.com", sender := "jeppe@firma.dk",
    subject := "Re: Tilbud", content := "Opfoelgning." }

def strConfAi : AiResult :=
  { is_sales_opportunity := true, confidence := ConfVal.str "",
    estimated_value := 0, currency := "DKK", person_name := none,
    organization_name := none }

def demoDealCheck : DealCheck :=
  { contact_exists := true, contact := some larsContact, deals := [],
    has_deals := false }

def openDealFault : Faults :=
  { openDealCheckFails := true, createContactFails := false,
    createDealFails := false }

def demoNotification : Notification :=
  { resource := "Users/ms-77/Messages/msg-1",
    clientState := "user_u1", subscriptionId := "sub-1" }

def demoWebhookEnv : WebhookEnv :=
  { storedMsUserId := fun u => if u = "u1" then some "ms-77" else none,
    fetchOk := fun _ _ => true }

def outcome_labels : List String :=
  ["Error: AI analysis failed", "Ignored: Not a sales deal",
   "Error: Failed to process", "Skipped: Low confidence score",
   "Not created: Deal already exists",
   "Created: Contact & company already exists",
   "Created: Contact already exists",
   "Created: Company already exists",
   "Created: New contact, company & deal created",
   "Created: New contact created (no company)"]

/-! Helper lemmas. -/

@[simp] theorem logCall_contacts (st : CrmState) (c : CrmCall) :
    (logCall st c).contacts = st.contacts := rfl

@[simp] theorem logCall_orgs (st : CrmState) (c : CrmCall) :
    (logCall st c).orgs = st.orgs := rfl

@[simp] theorem logCall_deals (st : CrmState) (c : CrmCall) :
    (logCall st c).deals = st.deals := rfl

@[simp] theorem logCall_calls (st : CrmState) (c : CrmCall) :
    (logCall st c).calls = c :: st.calls := rfl

theorem lookupField_append_some {l₁ : JsonObj} {f : String} {v : Json}
    (l₂ : JsonObj) (h : lookupField l₁ f = some v) :
    lookupField (l₁ ++ l₂) f = some v := by
  induction l₁ with
  | nil => simp [lookupField] at h
  | cons kv rest ih =>
    obtain ⟨k, w⟩ := kv
    by_cases hk : k = f
    · simp [lookupField, hk] at h ⊢
      exact h
    · simp [lookupField, hk] at h ⊢
      exact ih h

theorem lookupField_append_none {l₁ : JsonObj} {f : String}
    (l₂ : JsonObj) (h : lookupField l₁ f = none) :
    lookupField (l₁ ++ l₂) f = lookupField l₂ f := by
  induction l₁ with
  | nil => simp [lookupField]
  | cons kv rest ih =>
    obtain ⟨k, w⟩ := kv
    by_cases hk : k = f
    · simp [lookupField, hk] at h
    · simp [lookupField, hk] at h ⊢
      exact ih h

theorem fillStep_preserve {acc : JsonObj} {f : String} {v : Json}
    (g : String) (h : lookupField acc f = some v) :
    lookupField (fillStep acc g) f = some v := by
  unfold fillStep
  cases hg : lookupField acc g with
  | some w => exact h
  | none => exact lookupField_append_some _ h

theorem foldl_fillStep_preserve {f : String} {v : Json}
    (fs : List String) :
    ∀ acc : JsonObj, lookupField acc f = some v →
      lookupField (fs.foldl fillStep acc) f = some v := by
  induction fs with
  | nil => intro acc h; simpa using h
  | cons g gs ih =>
    intro acc h
    exact ih (fillStep acc g) (fillStep_preserve g h)

theorem fillStep_insert_self {acc : JsonObj} {f : String}
    (h : lookupField acc f = none) :
    lookupField (fillStep acc f) f = some (pyDefaultFor f) := by
  unfold fillStep
  rw [h]
  rw [lookupField_append_none _ h]
  simp [lookupField]

theorem fillStep_other {acc : JsonObj} {f g : String} (hg : g ≠ f) :
    lookupField (fillStep acc g) f = lookupField acc f := by
  unfold fillStep
  cases hgl : lookupField acc g with
  | some w => rfl
  | none =>
    cases hfl : lookupField acc f with
    | some w => exact lookupField_append_some _ hfl
    | none =>
      rw [lookupField_append_none _ hfl]
      simp [lookupField, hg]

theorem foldl_fillStep_mem {f : String} (fs : List String) :
    ∀ acc : JsonObj, f ∈ fs → lookupField acc f = none →
      lookupField (fs.foldl fillStep acc) f = some (pyDefaultFor f) := by
  induction fs with
  | nil => intro acc hmem; cases hmem
  | cons g gs ih =>
    intro acc hmem hnone
    by_cases hg : g = f
    · subst hg
      exact foldl_fillStep_preserve gs (fillStep acc g)
        (fillStep_insert_self hnone)
    · rcases List.mem_cons.mp hmem with hgf | hmem2
      · exact absurd hgf.symm hg
      · exact ih (fillStep acc g) hmem2 ((fillStep_other hg).trans hnone)

/-! Claim C3. The classification parser is documented as never raising,
yet for a response text containing no brace pair the source raises a
ValueError inside its own try block while the handler only catches
json.JSONDecodeError, so the error escapes (and analyze_email re-raises
it, surfacing as AIAnalysisError after the retry decorator). -/

/-- C3: evaluating the parsing operation at a response text with no JSON
object markers yields the escaping error instead of the defaulted result
the code's own fallback comment promises. -/
theorem parse_raises_on_missing_braces :
    parse_ai_response noLoads noJsonContent =
      Except.error "No JSON found in response" := rfl

/-! Claim C4. For a parseable object that is missing required fields, the
substituted defaults are the ones at analyze_email.py lines 123-134: an
empty string for every field other than ai_generated, key_points,
estimated_value and currency. In particular is_sales_opportunity and
confidence become the empty string, not false and 0.0 as the spec
states. -/

/-- C4 counterexample: parsing an empty JSON object yields a result whose
confidence and is_sales_opportunity fields are empty strings, not the
documented 0.0 and false. -/
theorem parse_missing_field_defaults_counterexample :
    parse_ai_response loadsEmptyObj emptyObjStr =
        Except.ok defaultFilledEmpty ∧
      lookupField defaultFilledEmpty "confidence" = some (Json.str "") ∧
      lookupField defaultFilledEmpty "is_sales_opportunity" =
        some (Json.str "") ∧
      Json.str "" ≠ Json.num 0 ∧
      Json.str "" ≠ Json.bool false := by
  refine ⟨rfl, rfl, rfl, ?_, ?_⟩ <;> intro h <;> cases h

/-- C4 amended: after the defaulting pass every required field is present,
and a field that was missing holds exactly the default of the source:
0 for estimated_value, DKK for currency, the empty list for key_points,
true for ai_generated, and the empty string for every other field
(including is_sales_opportunity and confidence). -/
theorem fillRequired_defaults (obj : JsonObj) (f : String)
    (hmem : f ∈ requiredFields) :
    (lookupField (fillRequired obj) f).isSome = true ∧
      (lookupField obj f = none →
        lookupField (fillRequired obj) f = some (pyDefaultFor f)) := by
  constructor
  · cases hl : lookupField obj f with
    | some v =>
      rw [show fillRequired obj = requiredFields.foldl fillStep obj from rfl,
        foldl_fillStep_preserve requiredFields obj hl]
      rfl
    | none =>
      rw [show fillRequired obj = requiredFields.foldl fillStep obj from rfl,
        foldl_fillStep_mem requiredFields obj hmem hl]
      rfl
  · intro hl
    exact foldl_fillStep_mem requiredFields obj hmem hl

/-- C4 amended, witness: the confidence field of an empty object is filled
with the empty-string default. -/
theorem fillRequired_defaults_witness :
    (lookupField (fillRequired []) "confidence").isSome = true ∧
      lookupField (fillRequired []) "confidence" = some (Json.str "") := by
  have h := fillRequired_defaults [] "confidence" (by decide)
  exact ⟨h.1, (h.2 rfl).trans rfl⟩

/-! Claim C5. The Microsoft refresh persists the new token pair through
encrypt_token; the Pipedrive refresh persists the raw strings, which its
own _load_tokens then fails to decrypt on the next read. -/

/-- C5: after an identical successful token-refresh response, the Pipedrive
manager persists the new pair unencrypted while the Microsoft manager
persists it through encrypt_token; the plaintext write is not an
encrypt_token write. -/
theorem refresh_persist_encryption_divergence :
    pipedrive_refresh_access_token
        { access_token := "oldA", refresh_token := some "oldR" }
        { status := 200, access_token := "newA",
          refresh_token := some "newR" } =
      Except.ok
        ({ access_token := "newA", refresh_token := some "newR" },
         { access_token := StoredVal.plain "newA",
           refresh_token := some (StoredVal.plain "newR") }) ∧
    microsoft_refresh_access_token
        { access_token := "oldA", refresh_token := some "oldR" }
        { status := 200, access_token := "newA",
          refresh_token := some "newR" } =
      Except.ok
        ({ access_token := "newA", refresh_token := some "newR" },
         { access_token := StoredVal.enc "newA",
           refresh_token := some (StoredVal.enc "newR") }) ∧
    StoredVal.plain "newA" ≠ encrypt_token "newA" := by
  refine ⟨rfl, rfl, ?_⟩
  intro h
  cases h

theorem categorize_outcome_mem (ai : Option AiResult)
    (pr : Option PipedriveResult) (s : String)
    (h : categorize_webhook_outcome ai pr = Except.ok s) :
    s ∈ outcome_labels := by
  unfold categorize_webhook_outcome at h
  repeat' split at h
  all_goals simp_all [outcome_labels]

theorem categorize_ok_of_num (a : AiResult) (pr : Option PipedriveResult)
    (q : Rat) (hnum : a.confidence = ConfVal.num q) :
    ∃ s, categorize_webhook_outcome (some a) pr = Except.ok s := by
  simp only [categorize_webhook_outcome, hnum]
  repeat' split
  all_goals exact ⟨_, rfl⟩

/-! Claim C2. process_email is total and always produces an outcome, but
the audit activity write happens only when analysis succeeded and no
later exception escaped to the top-level handler: the failed-analysis
branch returns _create_error_result without any log_activity_to_supabase
call (orchestrator.py lines 61-62), and the top-level except (lines
128-141) reached through the TypeError the categorizer raises on a
string-defaulted confidence also writes no activity entry even though
classification succeeded. -/

/-- C2 counterexample: when AI analysis fails, process_email returns an
outcome but writes no audit activity entry. -/
theorem process_email_missing_audit_on_failed_analysis :
    (process_email emptyCrm noFaults none annaEmail).2.outcome =
        "Error: AI analysis failed" ∧
      (process_email emptyCrm noFaults none annaEmail).2.activityLogged =
        false := ⟨rfl, rfl⟩

/-- C2 amended: process_email never raises and always returns a result
carrying a nonempty outcome string, but the audit activity entry is
written only when classification succeeded and no later step raised into
the top-level handler: no entry when classification failed; an entry for
every non-opportunity and for every numeric confidence; and no entry (and
a failed result) when an opportunity classification carries the
string-defaulted confidence, whose comparison in the categorizer raises
and is swallowed by the top-level except after the Pipedrive operations
already ran. -/
theorem process_email_total_outcome_and_audit (st : CrmState)
    (faults : Faults) (aiOutcome : Option AiResult) (email : EmailData) :
    (process_email st faults aiOutcome email).2.outcome ≠ "" ∧
      (aiOutcome = none →
        (process_email st faults aiOutcome email).2.activityLogged =
          false) ∧
      (∀ ai, aiOutcome = some ai → ai.is_sales_opportunity = false →
        (process_email st faults aiOutcome email).2.activityLogged =
          true) ∧
      (∀ ai q, aiOutcome = some ai → ai.confidence = ConfVal.num q →
        (process_email st faults aiOutcome email).2.activityLogged =
          true) ∧
      (∀ ai s, aiOutcome = some ai → ai.is_sales_opportunity = true →
        ai.confidence = ConfVal.str s →
        (process_email st faults aiOutcome email).2.activityLogged =
            false ∧
          (process_email st faults aiOutcome email).2.success = false) := by
  have hlabels : ∀ x ∈ outcome_labels, x ≠ "" := by decide
  cases aiOutcome with
  | none =>
    refine ⟨by simp [process_email], fun _ => rfl, ?_, ?_, ?_⟩
    · intro a h
      cases h
    · intro a q h
      cases h
    · intro a s h
      cases h
  | some ai =>
    refine ⟨?_, ?_, ?_, ?_, ?_⟩
    · cases hb : ai.is_sales_opportunity
      · simp [process_email, hb]
      · cases hcat : categorize_webhook_outcome (some ai)
          (some (handle_pipedrive_operations st faults email ai).2) with
        | ok s =>
          have hs := hlabels s (categorize_outcome_mem _ _ s hcat)
          simpa [process_email, hb, hcat] using hs
        | error e =>
          simp only [process_email, hb, hcat]
          intro hcontra
          have hlen := congrArg String.length hcontra
          simp [String.length_append] at hlen
          exact absurd hlen.1 (by decide)
    · intro h
      cases h
    · intro a h hopp
      rw [← Option.some.inj h] at hopp
      simp [process_email, hopp]
    · intro a q h hnum
      rw [← Option.some.inj h] at hnum
      cases hb : ai.is_sales_opportunity
      · simp [process_email, hb]
      · obtain ⟨s, hs⟩ := categorize_ok_of_num ai
          (some (handle_pipedrive_operations st faults email ai).2) q hnum
        simp [process_email, hb, hs]
    · intro a s h hopp hstr
      rw [← Option.some.inj h] at hopp hstr
      constructor <;>
        simp [process_email, hopp, categorize_webhook_outcome, hstr]

/-- C2 amended, witness: an opportunity classification carrying the
string-defaulted confidence yields a failed result with no audit entry. -/
theorem process_email_total_outcome_and_audit_witness :
    (process_email emptyCrm noFaults (some strConfAi) annaEmail).2.activityLogged
        = false ∧
      (process_email emptyCrm noFaults (some strConfAi) annaEmail).2.success
        = false := by
  have h := process_email_total_outcome_and_audit emptyCrm noFaults
    (some strConfAi) annaEmail
  exact h.2.2.2.2 strConfAi "" rfl rfl rfl

/-! Claim C7. The confidence threshold is only consulted by the outcome
categorizer, which runs after the Pipedrive operations: a low-confidence
opportunity email is labelled skipped, but CRM calls (up to and including
deal creation) have already been issued. For a low-confidence
non-opportunity the hard-coded label is the not-a-sales-deal one. -/

/-- C7 counterexample: an opportunity classification with confidence 0.15
yields the low-confidence outcome, yet the run issued CRM calls and even
created a deal. -/
theorem low_confidence_still_calls_crm :
    (process_email emptyCrm noFaults (some lowConfAi) annaEmail).2.outcome =
        "Skipped: Low confidence score" ∧
      (process_email emptyCrm noFaults (some lowConfAi) annaEmail).1.deals.length
        = 1 ∧
      (process_email emptyCrm noFaults (some lowConfAi) annaEmail).1.calls
        ≠ [] := by
  refine ⟨rfl, rfl, ?_⟩
  decide

/-- C7 amended: every opportunity email whose classification confidence is
strictly below 0.3 is labelled with the low-confidence outcome, whatever
the (already executed) Pipedrive operations did; the no-CRM-call part of
the original claim is dropped. -/
theorem low_confidence_outcome_label (st : CrmState) (faults : Faults)
    (email : EmailData) (ai : AiResult) (q : Rat)
    (hopp : ai.is_sales_opportunity = true)
    (hnum : ai.confidence = ConfVal.num q)
    (hconf : q < mkRat 3 10) :
    (process_email st faults (some ai) email).2.outcome =
      "Skipped: Low confidence score" := by
  simp [process_email, hopp, categorize_webhook_outcome, hnum, hconf]

/-- C7 amended, witness. -/
theorem low_confidence_outcome_label_witness :
    (process_email emptyCrm noFaults (some lowConfAi) annaEmail).2.outcome =
      "Skipped: Low confidence score" :=
  low_confidence_outcome_label emptyCrm noFaults annaEmail lowConfAi
    (mkRat 15 100) rfl rfl (by decide)

/-! Claim C1. When the contact resolved for the recipient already has an
open deal and the open-deal query succeeds, the Pipedrive handling never
creates a deal: it reports deal_created false with the open-deal reason
and leaves the deal store untouched, for every classification input. -/

/-- C1: for every CRM state, classification and email, if the recipient
resolves to a contact with an open deal and the open-deal check does not
fail, the resolution creates no deal, returns the open-deal reason, and
leaves deals, contacts and organizations unchanged. -/
theorem no_second_deal_when_open_deal_exists (st : CrmState)
    (faults : Faults) (email : EmailData) (ai : AiResult) (c : Contact)
    (hfault : faults.openDealCheckFails = false)
    (hfind : findContactByEmail st.contacts email.toAddr = some c)
    (hopen : openDealsNonempty st.deals c.id = true) :
    (handle_pipedrive_operations st faults email ai).2.deal_created =
        false ∧
      (handle_pipedrive_operations st faults email ai).2.reason =
        some openDealReason ∧
      (handle_pipedrive_operations st faults email ai).1.deals = st.deals ∧
      (handle_pipedrive_operations st faults email ai).1.contacts =
        st.contacts ∧
      (handle_pipedrive_operations st faults email ai).1.orgs = st.orgs := by
  unfold handle_pipedrive_operations contact_has_deals
    search_contact_by_email get_contact_deals has_open_deal
    search_organization_by_name
  simp only [hfind, logCall_contacts, logCall_orgs, logCall_deals, hfault,
    Bool.false_eq_true, if_false, hopen, Option.isSome_some, if_true,
    mergeResult]
  by_cases horg : pyCapitalize (firstDomainLabel email.toAddr) = "" <;>
    simp [horg, mergeResult, logCall]

/-- C1 witness: a concrete contact with one open deal; resolution declines
to create a second one. -/
theorem no_second_deal_when_open_deal_exists_witness :
    (handle_pipedrive_operations larsCrm noFaults larsEmail acmeAi).2.deal_created
        = false ∧
      (handle_pipedrive_operations larsCrm noFaults larsEmail acmeAi).2.reason
        = some openDealReason ∧
      (handle_pipedrive_operations larsCrm noFaults larsEmail acmeAi).1.deals
        = larsCrm.deals ∧
      (handle_pipedrive_operations larsCrm noFaults larsEmail acmeAi).1.contacts
        = larsCrm.contacts ∧
      (handle_pipedrive_operations larsCrm noFaults larsEmail acmeAi).1.orgs
        = larsCrm.orgs :=
  no_second_deal_when_open_deal_exists larsCrm noFaults larsEmail acmeAi
    larsContact rfl (by decide) (by decide)

/-! Claim C10. When the open-deal query hits a provider failure it is
caught and reported as False (pipedrive_manager.py lines 501-505), so the
resolution proceeds and creates a deal even though the contact already
holds an open one: the failure weakens the no-duplicate-deal invariant
instead of aborting deal creation. -/

/-- C10: with the open-deal check failing, it reports false, and for a
contact that in fact holds an open deal the resolution still creates a
new open deal for that same contact. -/
theorem failed_open_deal_check_creates_second_deal (st : CrmState)
    (faults : Faults) (email : EmailData) (ai : AiResult) (c : Contact)
    (hfault : faults.openDealCheckFails = true)
    (hdeal : faults.createDealFails = false)
    (hfind : findContactByEmail st.contacts email.toAddr = some c)
    (hopen : openDealsNonempty st.deals c.id = true) :
    (has_open_deal st faults c.id).2 = false ∧
      (handle_pipedrive_operations st faults email ai).2.deal_created =
        true ∧
      ∃ d : Deal,
        (handle_pipedrive_operations st faults email ai).1.deals =
            st.deals ++ [d] ∧
          d.personId = c.id ∧ d.status = "open" := by
  refine ⟨by simp [has_open_deal, hfault], ?_⟩
  unfold handle_pipedrive_operations contact_has_deals
    search_contact_by_email get_contact_deals has_open_deal
    search_organization_by_name create_deal_if_needed create_deal log_note
  simp only [hfind, hfault, hdeal, logCall_contacts, logCall_orgs,
    logCall_deals, mergeResult]
  by_cases horg : pyCapitalize (firstDomainLabel email.toAddr) = "" <;>
    simp [horg, mergeResult, logCall, has_open_deal, hfault, hdeal]

/-- C10 witness: the concrete contact with an open deal gets a second open
deal when the open-deal query fails. -/
theorem failed_open_deal_check_creates_second_deal_witness :
    (has_open_deal larsCrm openDealFault larsContact.id).2 = false ∧
      (handle_pipedrive_operations larsCrm openDealFault larsEmail acmeAi).2.deal_created
        = true ∧
      ∃ d : Deal,
        (handle_pipedrive_operations larsCrm openDealFault larsEmail acmeAi).1.deals
            = larsCrm.deals ++ [d] ∧
          d.personId = larsContact.id ∧ d.status = "open" :=
  failed_open_deal_check_creates_second_deal larsCrm openDealFault
    larsEmail acmeAi larsContact rfl rfl (by decide) (by decide)

/-! Claim C6. A second ingest of the same (user, message) notification
after a first successful one is skipped before any further processing and
writes nothing: exactly one record for the pair exists afterwards. -/

/-- C6: if a notification ingest stored a record, re-ingesting the same
notification (under any environment) is reported as a duplicate, leaves
the store unchanged, and the pair occurs exactly once. -/
theorem duplicate_ingest_skipped (env env₂ : WebhookEnv) (db : WebhookDb)
    (n : Notification) (ms mid uid : String)
    (hres : parseResource n.resource = some (ms, mid))
    (huid : extractUserId n.clientState = some uid)
    (hstored : (process_email_webhook_step env db n).2 =
      IngestStatus.stored) :
    process_email_webhook_step env₂
        (process_email_webhook_step env db n).1 n =
      ((process_email_webhook_step env db n).1,
        IngestStatus.skippedDuplicate) ∧
      countPair (process_email_webhook_step env db n).1 uid mid = 1 := by
  unfold process_email_webhook_step at hstored ⊢
  rw [hres, huid] at hstored ⊢
  by_cases hempty : ms = "" ∨ mid = "" ∨ uid = ""
  · simp [hempty] at hstored
  · simp only [hempty, if_false] at hstored ⊢
    by_cases hex : email_exists_in_database db uid mid = true
    · simp [hex] at hstored
    · simp only [hex, Bool.false_eq_true, if_false] at hstored ⊢
      by_cases hver : verify_microsoft_user_mapping env uid ms = true
      · simp only [hver, Bool.not_true, Bool.false_eq_true, if_false]
          at hstored ⊢
        by_cases hfetch : env.fetchOk uid mid = true
        · simp only [hfetch, Bool.not_true, Bool.false_eq_true, if_false]
            at hstored ⊢
          constructor
          · simp [email_exists_in_database]
          · simp only [countPair, List.filter, beq_self_eq_true,
              Bool.and_self, if_true]
            have hcount :
                (db.emails.filter (fun e =>
                  e.user_id == uid && e.microsoft_email_id == mid)) = [] := by
              rw [List.filter_eq_nil_iff]
              intro e he
              intro hmatch
              apply hex
              unfold email_exists_in_database
              rw [List.any_eq_true]
              exact ⟨e, he, hmatch⟩
            simp [hcount]
        · simp [hfetch] at hstored
      · simp [hver] at hstored

/-- C6 witness: ingesting one concrete notification twice stores exactly
one record and reports the second attempt as a duplicate. -/
theorem duplicate_ingest_skipped_witness :
    process_email_webhook_step demoWebhookEnv
        (process_email_webhook_step demoWebhookEnv { emails := [] }
          demoNotification).1 demoNotification =
      ((process_email_webhook_step demoWebhookEnv { emails := [] }
          demoNotification).1,
        IngestStatus.skippedDuplicate) ∧
      countPair
        (process_email_webhook_step demoWebhookEnv { emails := [] }
          demoNotification).1 "u1" "msg-1" = 1 :=
  duplicate_ingest_skipped demoWebhookEnv demoWebhookEnv { emails := [] }
    demoNotification "ms-77" "msg-1" "u1" (by decide) (by decide) (by decide)

/-! Claim C8. The shared low-level call helper refreshes exactly once on a
401 and retries exactly once with the new token; any other non-2xx
response, and a still-failing retry, is terminal at this layer. -/

/-- C8: the call helper performs at most two requests and at most one
refresh; it refreshes exactly when the first response is a 401; a non-401
non-2xx first response is terminal after one request with no refresh; and
a failing retry after a successful refresh is terminal after the second
request. -/
theorem make_api_call_refresh_retry_policy (first retry : HttpResponse)
    (refreshOk : Bool) :
    (make_api_call first retry refreshOk).requests ≤ 2 ∧
      (make_api_call first retry refreshOk).refreshes =
        (if first.status = 401 then 1 else 0) ∧
      (make_api_call first retry refreshOk).requests =
        (if first.status = 401 ∧ refreshOk = true then 2 else 1) ∧
      (first.status ≠ 401 → first.status ≠ 200 → first.status ≠ 201 →
        (make_api_call first retry refreshOk).result =
          CallResult.apiError first.status) ∧
      (first.status = 401 → refreshOk = true → retry.status ≠ 200 →
        retry.status ≠ 201 →
        (make_api_call first retry refreshOk).result =
          CallResult.apiError retry.status) := by
  unfold make_api_call
  by_cases h401 : first.status = 401
  · cases refreshOk <;>
      simp [h401] <;>
      intro h200 h201 <;>
      simp [h200, h201]
  · simp [h401]
    intro h200 h201
    simp [h200, h201]

/-- C8 witness: a 401 first response with a successful refresh and a 500
retry performs two requests, one refresh, and ends in the terminal API
error of the retry. -/
theorem make_api_call_refresh_retry_policy_witness :
    (make_api_call { status := 401 } { status := 500 } true).requests ≤ 2 ∧
      (make_api_call { status := 401 } { status := 500 } true).refreshes
        = 1 ∧
      (make_api_call { status := 401 } { status := 500 } true).requests
        = 2 ∧
      (make_api_call { status := 401 } { status := 500 } true).result =
        CallResult.apiError 500 := by
  have h := make_api_call_refresh_retry_policy { status := 401 }
    { status := 500 } true
  refine ⟨h.1, ?_, ?_, ?_⟩
  · rw [h.2.1]; rfl
  · rw [h.2.2.1]; simp
  · exact h.2.2.2.2 rfl rfl (by decide) (by decide)

/-! Claim C9. The organization used for lookup and creation is always the
capitalized first domain label of the recipient address (orchestrator.py
lines 183-193, 204-205); the contact-name/AI-name/domain preference chain
(lines 264-271) only determines the organization name inside the deal
title. -/

/-- C9 counterexample: for a new contact whose classification carries the
AI organization name Acme Corp, the run searches for and creates only the
domain-derived organization Widgets; no lookup or creation ever uses the
AI-preferred name, contradicting the claimed preference order for lookup
and creation. -/
theorem org_resolution_ignores_ai_name :
    CrmCall.orgSearch "Widgets" ∈
        (handle_pipedrive_operations emptyCrm noFaults widgetsEmail acmeAi).1.calls ∧
      CrmCall.orgCreate "Widgets" ∈
        (handle_pipedrive_operations emptyCrm noFaults widgetsEmail acmeAi).1.calls ∧
      CrmCall.orgSearch "Acme Corp" ∉
        (handle_pipedrive_operations emptyCrm noFaults widgetsEmail acmeAi).1.calls ∧
      CrmCall.orgCreate "Acme Corp" ∉
        (handle_pipedrive_operations emptyCrm noFaults widgetsEmail acmeAi).1.calls ∧
      (handle_pipedrive_operations emptyCrm noFaults widgetsEmail acmeAi).1.orgs
        = [{ id := 1, name := "Widgets" }] ∧
      acmeAi.organization_name = some "Acme Corp" := by
  decide

theorem callsExtendOrg_of_eq {dom : String} {a b : CrmState}
    (h : b.calls = a.calls) : callsExtendOrg dom a b :=
  ⟨[], by simp [h], by simp⟩

theorem callsExtendOrg_trans {dom : String} {a b c : CrmState}
    (h1 : callsExtendOrg dom a b) (h2 : callsExtendOrg dom b c) :
    callsExtendOrg dom a c := by
  obtain ⟨n1, e1, o1⟩ := h1
  obtain ⟨n2, e2, o2⟩ := h2
  refine ⟨n2 ++ n1, by simp [e2, e1], ?_⟩
  intro x hx
  rcases List.mem_append.mp hx with h | h
  · exact o2 x h
  · exact o1 x h

theorem callsExtendOrg_log {dom : String} (st : CrmState) {c : CrmCall}
    (h : orgCallUses dom c) : callsExtendOrg dom st (logCall st c) :=
  ⟨[c], rfl, by simpa⟩

theorem callsExtendOrg_create_contact {dom : String} (st : CrmState)
    (f : Faults) {cd : ContactData}
    (h : cd.org_name = none ∨ cd.org_name = some dom) :
    callsExtendOrg dom st (create_contact st f cd).1 := by
  unfold create_contact
  rcases h with h | h <;> rw [h] <;> dsimp only
  · cases hf : f.createContactFails <;>
      exact ⟨[CrmCall.personCreate cd.name cd.email cd.org_name],
        by simp [hf, h, logCall], by simp [orgCallUses]⟩
  · dsimp only [search_organization_by_name]
    cases hfound : st.orgs.find? (fun o => lowerStr o.name == lowerStr dom) <;>
      dsimp only <;>
      cases hf : f.createContactFails
    · exact ⟨[CrmCall.personCreate cd.name cd.email cd.org_name,
        CrmCall.orgCreate dom, CrmCall.orgSearch dom],
        by simp [hf, h, logCall, create_organization], by simp [orgCallUses]⟩
    · exact ⟨[CrmCall.personCreate cd.name cd.email cd.org_name,
        CrmCall.orgCreate dom, CrmCall.orgSearch dom],
        by simp [hf, h, logCall, create_organization], by simp [orgCallUses]⟩
    · exact ⟨[CrmCall.personCreate cd.name cd.email cd.org_name,
        CrmCall.orgSearch dom],
        by simp [hf, h, logCall], by simp [orgCallUses]⟩
    · exact ⟨[CrmCall.personCreate cd.name cd.email cd.org_name,
        CrmCall.orgSearch dom],
        by simp [hf, h, logCall], by simp [orgCallUses]⟩

theorem create_deal_calls (st : CrmState) (f : Faults) (cid : Nat)
    (dd : DealData) (oid : Option Nat) :
    (create_deal st f cid dd oid).1.calls =
      CrmCall.dealCreate cid dd.title dd.value dd.currency :: st.calls := by
  unfold create_deal
  cases hf : f.createDealFails <;> simp [hf, logCall]

theorem callsExtendOrg_create_deal_if_needed {dom : String} (st : CrmState)
    (f : Faults) (email : EmailData) (ai : AiResult) (dc : DealCheck) :
    callsExtendOrg dom st (create_deal_if_needed st f email ai dc).1 := by
  unfold create_deal_if_needed
  cases hc : dc.contact with
  | none => exact callsExtendOrg_of_eq rfl
  | some contact =>
    dsimp only [has_open_deal]
    by_cases hC : (if f.openDealCheckFails = true then false
        else openDealsNonempty st.deals contact.id) = true
    · rw [if_pos hC]
      exact callsExtendOrg_log st (by trivial)
    · rw [if_neg hC]
      cases hq : (create_deal (logCall st (CrmCall.openDealsByPerson contact.id))
          f contact.id
          { title := dealTitle contact ai email.toAddr,
            value := ai.estimated_value, currency := ai.currency }
          contact.company_id).2 with
      | some d =>
        refine ⟨[CrmCall.noteCreate d.id,
          CrmCall.dealCreate contact.id (dealTitle contact ai email.toAddr)
            ai.estimated_value ai.currency,
          CrmCall.openDealsByPerson contact.id], ?_, by simp [orgCallUses]⟩
        simp [log_note, logCall, create_deal_calls]
      | none =>
        refine ⟨[CrmCall.dealCreate contact.id (dealTitle contact ai email.toAddr)
            ai.estimated_value ai.currency,
          CrmCall.openDealsByPerson contact.id], ?_, by simp [orgCallUses]⟩
        simp [logCall, create_deal_calls]

theorem callsExtendOrg_handle (st : CrmState) (f : Faults)
    (email : EmailData) (ai : AiResult) :
    callsExtendOrg (pyCapitalize (firstDomainLabel email.toAddr)) st
      (handle_pipedrive_operations st f email ai).1 := by
  unfold handle_pipedrive_operations contact_has_deals
    search_contact_by_email get_contact_deals
  cases hfind : findContactByEmail st.contacts email.toAddr with
  | none =>
    simp only [hfind, Option.isSome_none, Bool.false_eq_true, if_false]
    by_cases horg : pyCapitalize (firstDomainLabel email.toAddr) = ""
    · simp only [horg, if_pos, if_true, eq_self_iff_true]
      refine callsExtendOrg_trans
        (callsExtendOrg_trans (callsExtendOrg_log st (by trivial))
          (callsExtendOrg_create_contact _ f (Or.inl (by simp [horg]))))
        (callsExtendOrg_create_deal_if_needed _ _ _ _ _)
    · simp only [horg, if_neg, if_false]
      dsimp only [search_organization_by_name]
      refine callsExtendOrg_trans
        (callsExtendOrg_trans
          (callsExtendOrg_trans (callsExtendOrg_log st (by trivial))
            (callsExtendOrg_log _ (by simp [orgCallUses])))
          (callsExtendOrg_create_contact _ f (Or.inr (by simp [horg]))))
        (callsExtendOrg_create_deal_if_needed _ _ _ _ _)
  | some c =>
    simp only [hfind, Option.isSome_some, if_true]
    dsimp only [has_open_deal]
    by_cases horg : pyCapitalize (firstDomainLabel email.toAddr) = "" <;>
      by_cases hq2 : (if f.openDealCheckFails = true then false
        else openDealsNonempty st.deals c.id) = true
    · simp only [horg, hq2, logCall_deals, if_true, eq_self_iff_true,
        ite_true]
      exact callsExtendOrg_trans
        (callsExtendOrg_trans (callsExtendOrg_log st (by trivial))
          (callsExtendOrg_log _ (by trivial)))
        (callsExtendOrg_log _ (by trivial))
    · simp only [horg, hq2, logCall_deals, if_true, eq_self_iff_true,
        ite_true, ite_false, if_false, Bool.false_eq_true]
      refine callsExtendOrg_trans
        (callsExtendOrg_trans
          (callsExtendOrg_trans (callsExtendOrg_log st (by trivial))
            (callsExtendOrg_log _ (by trivial)))
          (callsExtendOrg_log _ (by trivial)))
        (callsExtendOrg_create_deal_if_needed _ _ _ _ _)
    · simp only [horg, hq2, logCall_deals, if_true, eq_self_iff_true,
        ite_true, ite_false, if_false, Bool.false_eq_true]
      dsimp only [search_organization_by_name]
      exact callsExtendOrg_trans
        (callsExtendOrg_trans
          (callsExtendOrg_trans (callsExtendOrg_log st (by trivial))
            (callsExtendOrg_log _ (by trivial)))
          (callsExtendOrg_log _ (by trivial)))
        (callsExtendOrg_log _ (by simp [orgCallUses]))
    · simp only [horg, hq2, logCall_deals, if_true, eq_self_iff_true,
        ite_true, ite_false, if_false, Bool.false_eq_true]
      dsimp only [search_organization_by_name]
      refine callsExtendOrg_trans
        (callsExtendOrg_trans
          (callsExtendOrg_trans
            (callsExtendOrg_trans (callsExtendOrg_log st (by trivial))
              (callsExtendOrg_log _ (by trivial)))
            (callsExtendOrg_log _ (by trivial)))
          (callsExtendOrg_log _ (by simp [orgCallUses])))
        (callsExtendOrg_create_deal_if_needed _ _ _ _ _)

theorem create_deal_if_needed_title (st : CrmState) (f : Faults)
    (email : EmailData) (ai : AiResult) (dc : DealCheck)
    (h : (create_deal_if_needed st f email ai dc).2.deal_created = true) :
    ∃ c d, dc.contact = some c ∧
      (create_deal_if_needed st f email ai dc).2.deal = some d ∧
      d.title = dealTitle c ai email.toAddr := by
  unfold create_deal_if_needed at h ⊢
  cases hc : dc.contact with
  | none =>
    rw [hc] at h
    simp at h
  | some contact =>
    rw [hc] at h
    dsimp only [has_open_deal] at h ⊢
    by_cases hC : (if f.openDealCheckFails = true then false
        else openDealsNonempty st.deals contact.id) = true
    · rw [if_pos hC] at h
      simp at h
    · rw [if_neg hC] at h ⊢
      cases hq : (create_deal (logCall st (CrmCall.openDealsByPerson contact.id))
          f contact.id
          { title := dealTitle contact ai email.toAddr,
            value := ai.estimated_value, currency := ai.currency }
          contact.company_id).2 with
      | none =>
        rw [hq] at h
        simp at h
      | some d =>
        rw [hq] at h
        refine ⟨contact, d, rfl, rfl, ?_⟩
        unfold create_deal at hq
        cases hf : f.createDealFails
        · simp [hf] at hq
          rw [← hq]
        · simp [hf] at hq

/-- C9 amended: for every state, fault setting, email and classification,
every organization search or creation issued by the resolution names the
capitalized first domain label of the recipient email, regardless of the
contact or AI organization names; the preference chain (contact
organization, else AI organization, else domain label) is applied only to
the title of a created deal. -/
theorem org_resolution_uses_domain_label (st : CrmState) (f : Faults)
    (email : EmailData) (ai : AiResult) (dc : DealCheck) :
    (∀ t, CrmCall.orgSearch t ∈
        (handle_pipedrive_operations st f email ai).1.calls →
      CrmCall.orgSearch t ∈ st.calls ∨
        t = pyCapitalize (firstDomainLabel email.toAddr)) ∧
    (∀ t, CrmCall.orgCreate t ∈
        (handle_pipedrive_operations st f email ai).1.calls →
      CrmCall.orgCreate t ∈ st.calls ∨
        t = pyCapitalize (firstDomainLabel email.toAddr)) ∧
    ((create_deal_if_needed st f email ai dc).2.deal_created = true →
      ∃ c d, dc.contact = some c ∧
        (create_deal_if_needed st f email ai dc).2.deal = some d ∧
        d.title = dealTitle c ai email.toAddr) := by
  obtain ⟨new, he, ho⟩ := callsExtendOrg_handle st f email ai
  refine ⟨?_, ?_, create_deal_if_needed_title st f email ai dc⟩
  · intro t ht
    rw [he] at ht
    rcases List.mem_append.mp ht with hn | hs
    · exact Or.inr (ho _ hn)
    · exact Or.inl hs
  · intro t ht
    rw [he] at ht
    rcases List.mem_append.mp ht with hn | hs
    · exact Or.inr (ho _ hn)
    · exact Or.inl hs

/-- C9 amended, witness: in the concrete run the searched name is the
domain label and the created deal carries the preference-chain title. -/
theorem org_resolution_uses_domain_label_witness :
    (CrmCall.orgSearch "Widgets" ∈ emptyCrm.calls ∨
      "Widgets" = pyCapitalize (firstDomainLabel widgetsEmail.toAddr)) ∧
    (∃ c d, demoDealCheck.contact = some c ∧
      (create_deal_if_needed emptyCrm noFaults widgetsEmail acmeAi
        demoDealCheck).2.deal = some d ∧
      d.title = dealTitle c acmeAi widgetsEmail.toAddr) := by
  have h := org_resolution_uses_domain_label emptyCrm noFaults widgetsEmail
    acmeAi demoDealCheck
  exact ⟨h.1 "Widgets" (by decide), h.2.2 (by decide)⟩
